import Mathlib

/-!
Shallow embedding of the LiquidGlass camera component
(`components/LiquidGlassCamera.tsx`): the media store (IndexedDB helpers),
the device session manager (`startCamera`, `applyZoom`), the recording
lifecycle (`startVideoRecording`, `stopVideoRecording`) and the unified
capture entry point (`triggerCapture`, `takePhoto`).

Machine integers and JS numbers are modelled as `Nat` (sizes, ids, times)
and `ℚ` (pixel geometry, zoom factors); binary blobs are byte lists, so a
`Blob`'s `size` is the list length.  Asynchronous callbacks (recorder
events, timers) are modelled as explicit event lists folded over the
state; platform behaviour (`getUserMedia` grants, `isTypeSupported`,
`canvas.toBlob`, `applyConstraints` failures) is passed in as environment
records.
-/

namespace LiquidGlass

/-- A hardware media track: `active` models `readyState === "live"`;
the zoom fields model `getCapabilities().zoom` (present iff `hasZoom`)
and the last zoom constraint applied via `applyConstraints`. -/
structure Track where
  active : Bool
  hasZoom : Bool
  zoomMin : ℚ
  zoomMax : ℚ
  appliedZoom : Option ℚ
  deriving DecidableEq

/-- A `MediaStream` handle granted by `getUserMedia`; `id` identifies the
device handle for the at-most-one-active-stream invariant. -/
structure MStream where
  id : Nat
  tracks : List Track
  deriving DecidableEq

/-- Binary payload (`Blob` contents); `size` is the length. -/
abbrev Blob := List Nat

/-- `MediaRecorder.state`. -/
inductive MRState where
  | inactive
  | recording
  | paused
  deriving DecidableEq

/-- The `MediaRecorder` attached via `mediaRecorderRef`. -/
structure Recorder where
  state : MRState
  deriving DecidableEq

/-- The TS union type `AspectRatio = "full" | "4:3" | "1:1"`. -/
inductive Aspect where
  | full
  | fourThree
  | oneOne
  deriving DecidableEq

/-- The TS union type `CameraMode = "video" | "photo"`. -/
inductive Mode where
  | video
  | photo
  deriving DecidableEq

/-- The TS union type `"user" | "environment"` of `facingMode`. -/
inductive Facing where
  | user
  | environment
  deriving DecidableEq

/-- The `type` field of a stored record: `"photo" | "video"`. -/
inductive MediaKind where
  | photo
  | video
  deriving DecidableEq

/-- A record persisted in the IndexedDB `media` object store
(see the `dbAdd` call sites in `stopVideoRecording` and `takePhoto`). -/
structure MediaRecord where
  id : Nat
  kind : MediaKind
  blob : Blob
  live : Option Blob
  createdAt : Nat
  metaFacing : Option Facing
  metaStyle : Option String
  metaAspect : Option Aspect
  metaNight : Option Bool
  deriving DecidableEq

/-! ## IndexedDB media store (`dbAdd`, `dbGetAll`, `loadGallery`) -/

/-- `dbAdd`: the object store was created with
`{ keyPath: "id", autoIncrement: true }`, so the store assigns the next
auto-increment key to the added record.  Returns the new store contents
and the next key. -/
def dbAdd (db : List MediaRecord) (nextKey : Nat) (r : MediaRecord) :
    List MediaRecord × Nat :=
  (db ++ [{ r with id := nextKey }], nextKey + 1)

/-- `dbGetAll`: returns every record of the object store. -/
def dbGetAll (db : List MediaRecord) : List MediaRecord :=
  db

/-- The comparator of `loadGallery`: `items.sort((a, b) => b.id - a.id)`
keeps `a` before `b` exactly when `b.id - a.id ≤ 0`, i.e. identity
descending. -/
def galleryRel (a b : MediaRecord) : Prop :=
  b.id ≤ a.id

instance : DecidableRel galleryRel := fun a b =>
  inferInstanceAs (Decidable (b.id ≤ a.id))

instance : IsTotal MediaRecord galleryRel :=
  ⟨fun a b => Nat.le_total b.id a.id⟩

instance : IsTrans MediaRecord galleryRel :=
  ⟨fun _ _ _ h h' => Nat.le_trans h' h⟩

/-- `loadGallery`: `(await dbGetAll()).sort((a, b) => b.id - a.id)`. -/
def loadGallery (db : List MediaRecord) : List MediaRecord :=
  List.insertionSort galleryRel (dbGetAll db)

/-! ## Photo crop geometry (`takePhoto`, source rectangle computation) -/

/-- The source rectangle `sx, sy, sWidth, sHeight` computed in
`takePhoto` from `video.videoWidth`/`video.videoHeight`. -/
structure Rect where
  sx : ℚ
  sy : ℚ
  sw : ℚ
  sh : ℚ
  deriving DecidableEq

/-- The source-rectangle computation of `takePhoto`: starts from the full
frame, then narrows for aspect `"1:1"` (centered square of side
`Math.min(width, height)`) or `"4:3"` (centered rectangle fitted to the
ratio, branching on orientation and on whether the frame is wider than
the 4:3 target). -/
def cropRect (aspect : Aspect) (width height : ℚ) : Rect :=
  if aspect = Aspect.oneOne then
    let m := min width height
    { sx := (width - m) / 2, sy := (height - m) / 2, sw := m, sh := m }
  else if aspect = Aspect.fourThree then
    if height < width then
      let targetWidth := height * (4 / 3)
      if targetWidth < width then
        { sx := (width - targetWidth) / 2, sy := 0, sw := targetWidth, sh := height }
      else
        let targetHeight := width * (3 / 4)
        { sx := 0, sy := (height - targetHeight) / 2, sw := width, sh := targetHeight }
    else
      let targetHeight := width * (4 / 3)
      if targetHeight < height then
        { sx := 0, sy := (height - targetHeight) / 2, sw := width, sh := targetHeight }
      else
        let targetWidth := height * (3 / 4)
        { sx := (width - targetWidth) / 2, sy := 0, sw := targetWidth, sh := height }
  else
    { sx := 0, sy := 0, sw := width, sh := height }

/-! ## Component state -/

/-- The refs and React state of `LiquidGlassCamera` that the capture
machinery reads and writes: the stream and recorder refs, the chunk
buffer, the two guard refs, the `isRecording`/`isProcessing` state, the
settings consumed at capture time, the IndexedDB contents with the
store's next auto-increment key, the in-memory `gallery`, and the toast
log (most recent first). -/
structure CamState where
  stream : Option MStream
  mediaRecorder : Option Recorder
  recordedChunks : List Blob
  isStarting : Bool
  isStopping : Bool
  isRecording : Bool
  isProcessing : Bool
  countdown : Option Nat
  showFlashOverlay : Bool
  db : List MediaRecord
  nextKey : Nat
  gallery : List MediaRecord
  toasts : List String
  facingMode : Facing
  mode : Mode
  timer : Nat
  aspect : Aspect
  nightMode : Bool
  styleIndex : Nat
  liveEnabled : Bool
  now : Nat
  deriving DecidableEq

/-! ## Device session manager: `applyZoom` -/

/-- Platform behaviour for `applyZoom`: whether `t.getCapabilities` exists
(otherwise the code uses `{}` and finds no `zoom` key), and whether the
`applyConstraints` call rejects (the code catches and only warns). -/
structure ZoomEnv where
  capsAvailable : Bool
  constraintFails : Bool

/-- `applyZoom(z, track?)`: picks the given track (or the stream's first
video track, resolved by the caller here), returns unchanged if there is
none; reads capabilities (empty when `getCapabilities` is missing);
applies the constraint only when a `zoom` capability is advertised, with
the rejection caught.  The second component is whether an exception
propagates to the caller: every path returns `false`. -/
def applyZoom (env : ZoomEnv) (z : ℚ) (t : Option Track) :
    Option Track × Bool :=
  match t with
  | none => (none, false)
  | some tr =>
    if env.capsAvailable && tr.hasZoom then
      if env.constraintFails then (some tr, false)
      else (some { tr with appliedZoom := some z }, false)
    else (some tr, false)

/-! ## Device session manager: `startCamera` -/

/-- Observable side effects of `startCamera`, in program order:
`stopTracks sid` for `streamRef.current.getTracks().forEach(t => t.stop())`,
`getUserMedia audio` for each constraint attempt, and `attach sid` for
`videoRef.current.srcObject = streamRef.current`. -/
inductive CamEff where
  | stopTracks (sid : Nat)
  | getUserMedia (audio : Bool)
  | attach (sid : Nat)
  deriving DecidableEq

/-- Platform responses to the two `getUserMedia` attempts of
`startCamera`: the track list of the granted stream, or `none` when the
attempt rejects. -/
structure AcqEnv where
  firstGrant : Option (List Track)
  fallbackGrant : Option (List Track)

/-- Platform-side bookkeeping of device handles: ids already handed out
by `getUserMedia` and ids whose tracks have all been stopped.  A granted
stream is active until stopped. -/
structure PlatState where
  nextStreamId : Nat
  granted : List Nat
  stopped : List Nat
  deriving DecidableEq

/-- The device handles currently held open: granted and not stopped. -/
def activeStreams (p : PlatState) : List Nat :=
  p.granted.filter (fun i => !(p.stopped.contains i))

/-- Result of a `startCamera` call: component state, platform state and
the emitted effect trace. -/
structure Acquired where
  cam : CamState
  plat : PlatState
  effs : List CamEff

/-- `startCamera`: first stops every track of any existing stream, then
requests a new stream (audio only in video mode); on constraint
rejection retries once with relaxed constraints; on success stores and
attaches the stream; when both attempts reject, reports failure by
toast and leaves no new stream. -/
def startCamera (env : AcqEnv) (s : CamState) (p : PlatState) : Acquired :=
  let stopped : CamState × PlatState × List CamEff :=
    match s.stream with
    | none => (s, p, ([] : List CamEff))
    | some st =>
      ({ s with stream := some { st with tracks := st.tracks.map (fun t => { t with active := false }) } },
       { p with stopped := st.id :: p.stopped },
       [CamEff.stopTracks st.id])
  let s0 := stopped.1
  let p0 := stopped.2.1
  let e0 := stopped.2.2
  let audio := decide (s0.mode = Mode.video)
  match env.firstGrant with
  | some tr =>
    let sid := p0.nextStreamId
    { cam := { s0 with stream := some { id := sid, tracks := tr } }
      plat := { p0 with nextStreamId := sid + 1, granted := p0.granted ++ [sid] }
      effs := e0 ++ [CamEff.getUserMedia audio, CamEff.attach sid] }
  | none =>
    match env.fallbackGrant with
    | some tr =>
      let sid := p0.nextStreamId
      { cam := { s0 with stream := some { id := sid, tracks := tr } }
        plat := { p0 with nextStreamId := sid + 1, granted := p0.granted ++ [sid] }
        effs := e0 ++ [CamEff.getUserMedia audio, CamEff.getUserMedia audio, CamEff.attach sid] }
    | none =>
      { cam := { s0 with toasts := "Camera access failed" :: s0.toasts }
        plat := p0
        effs := e0 ++ [CamEff.getUserMedia audio, CamEff.getUserMedia audio] }

/-! ## Recording lifecycle: `startVideoRecording` -/

/-- The ordered encoding preference list of `startVideoRecording`. -/
def mimeTypes : List String :=
  ["video/webm;codecs=vp9", "video/webm;codecs=vp8", "video/webm"]

/-- Timeout bounds from the source: the start safety timeout and the
stop finalization timeout, in milliseconds. -/
def startTimeoutMs : Nat := 2500

/-- The stop finalization timeout (milliseconds). -/
def stopTimeoutMs : Nat := 4000

/-- Platform behaviour for `startVideoRecording`:
`MediaRecorder.isTypeSupported` and whether `new MediaRecorder` /
`mr.start(1000)` throws synchronously. -/
structure RecPlatform where
  isTypeSupported : String → Bool
  startThrows : Bool

/-- The first supported mime type of the preference list, `""` if none
(the loop leaves `selectedMime` empty). -/
def selectMime (p : RecPlatform) : String :=
  (mimeTypes.find? p.isTypeSupported).getD ""

/-- Whether the early `"MediaRecorder not supported"` abort is skipped:
a mime was selected, or `isTypeSupported("video/webm")` holds. -/
def recordingSupported (p : RecPlatform) : Bool :=
  !(selectMime p == "") || p.isTypeSupported "video/webm"

/-- A `startVideoRecording` attempt: the component state, the promise
resolution (once resolved: value and time in ms from the call), and
whether the recorder with its handlers and safety timeout was set up
(`false` on the guard-reject and unsupported-format early returns, which
run before any handler exists). -/
structure StartResult where
  state : CamState
  resolved : Option (Bool × Nat)
  armed : Bool
  deriving DecidableEq

/-- Promises resolve at most once; later `resolve` calls are no-ops. -/
def resolveOnce (r : Option (Bool × Nat)) (v : Bool) (t : Nat) :
    Option (Bool × Nat) :=
  match r with
  | none => some (v, t)
  | some x => some x

/-- The guard of `startVideoRecording`:
`!streamRef.current || isRecording || isStartingRef.current`. -/
def startGuard (s : CamState) : Bool :=
  s.stream.isNone || s.isRecording || s.isStarting

/-- The synchronous part of `startVideoRecording`: guard check; set
"starting" and processing; mime selection with the
`"MediaRecorder not supported"` abort; reset of the shared chunk buffer;
creation of the recorder (state `recording` after `mr.start(1000)`),
with the catch-all that clears both flags and resolves `false` when the
platform throws. -/
def startVideoRecordingSetup (p : RecPlatform) (s : CamState) : StartResult :=
  if startGuard s then
    { state := s, resolved := some (false, 0), armed := false }
  else
    let s1 := { s with isStarting := true, isProcessing := true }
    if !recordingSupported p then
      { state :=
        { s1 with
          isStarting := false
          isProcessing := false
          toasts := "MediaRecorder not supported" :: s1.toasts }
        resolved := some (false, 0)
        armed := false }
    else
      let s2 := { s1 with recordedChunks := [] }
      if p.startThrows then
        { state :=
          { s2 with
            mediaRecorder := some { state := MRState.inactive }
            isStarting := false
            isProcessing := false
            toasts := "Unable to start recording" :: s2.toasts }
          resolved := some (false, 0)
          armed := true }
      else
        { state := { s2 with mediaRecorder := some { state := MRState.recording } }
          resolved := none
          armed := true }

/-- Asynchronous callbacks that can reach a pending start attempt:
`ondataavailable`, `onerror`, `onstart`, and the armed safety timeout. -/
inductive RecEvent where
  | dataAvailable (d : Blob)
  | onerror
  | onstart
  | startTimeout
  deriving DecidableEq

/-- One callback, exactly as the handlers installed by
`startVideoRecording` behave: `ondataavailable` appends non-empty data
to the shared buffer; `onerror` toasts and, if still "starting", clears
the flags and resolves `false`; `onstart` transitions to recording,
clears "starting" and resolves `true` (unguarded in the source); the
safety timeout, if still "starting", clears the flags, stops and
detaches the recorder and resolves `false`, else does nothing.  The
event carries its firing time (ms). -/
def stepStart (r : StartResult) (te : Nat × RecEvent) : StartResult :=
  match te.2 with
  | RecEvent.dataAvailable d =>
    if 0 < d.length then
      { r with state := { r.state with recordedChunks := r.state.recordedChunks ++ [d] } }
    else r
  | RecEvent.onerror =>
    if r.state.isStarting then
      { state :=
        { r.state with
          isStarting := false
          isProcessing := false
          toasts := "Recording error" :: r.state.toasts }
        resolved := resolveOnce r.resolved false te.1
        armed := r.armed }
    else
      { r with state := { r.state with toasts := "Recording error" :: r.state.toasts } }
  | RecEvent.onstart =>
    { state :=
      { r.state with
        isRecording := true
        isStarting := false
        isProcessing := false
        toasts := "Recording started" :: r.state.toasts }
      resolved := resolveOnce r.resolved true te.1
      armed := r.armed }
  | RecEvent.startTimeout =>
    if r.state.isStarting then
      { state :=
        { r.state with
          isStarting := false
          isProcessing := false
          mediaRecorder := none
          toasts := "Recording failed to start" :: r.state.toasts }
        resolved := resolveOnce r.resolved false te.1
        armed := r.armed }
    else r

/-- A whole `startVideoRecording` attempt: the synchronous setup, then
the timed callbacks in schedule order (only when handlers were
installed). -/
def runStart (p : RecPlatform) (s : CamState) (evs : List (Nat × RecEvent)) :
    StartResult :=
  let r := startVideoRecordingSetup p s
  if r.armed then evs.foldl stepStart r else r

/-! ## Recording lifecycle: `stopVideoRecording` -/

/-- `handleStop`, the single finalization of `stopVideoRecording`:
concatenates the buffered chunks into one blob; persists it as a video
record (with facing-mode metadata) and reloads the gallery only when its
size is positive, toasting `"Recording saved"`; toasts
`"Recording empty"` otherwise; a storage failure is caught and toasted;
finally detaches the recorder and clears `isRecording`, `isProcessing`
and the "stopping" guard. -/
def handleStop (dbFails : Bool) (s : CamState) : CamState :=
  let blob := s.recordedChunks.flatten
  let s' :=
    if 0 < blob.length then
      if dbFails then
        { s with toasts := "Failed to save video" :: s.toasts }
      else
        let added := dbAdd s.db s.nextKey
          { id := 0
            kind := MediaKind.video
            blob := blob
            live := none
            createdAt := s.now
            metaFacing := some s.facingMode
            metaStyle := none
            metaAspect := none
            metaNight := none }
        { s with
          db := added.1
          nextKey := added.2
          gallery := loadGallery added.1
          toasts := "Recording saved" :: s.toasts }
    else
      { s with toasts := "Recording empty" :: s.toasts }
  { s' with
    mediaRecorder := none
    isRecording := false
    isProcessing := false
    isStopping := false }

/-- `stopVideoRecording`: no-op if already "stopping"; otherwise sets
"stopping" and processing, then finalizes — immediately when no recorder
is attached or it is already inactive, else after requesting the stop,
with `handleStop` run exactly once by the `onstop` acknowledgment, the
4s timeout, or the catch around `mr.stop()`, whichever comes first.
`extraChunks` are the data deliveries flushed between the stop request
and finalization. -/
def stopVideoRecording (dbFails : Bool) (extraChunks : List Blob)
    (s : CamState) : CamState :=
  if s.isStopping then s
  else
    let s1 := { s with isStopping := true, isProcessing := true }
    match s1.mediaRecorder with
    | none => handleStop dbFails s1
    | some mr =>
      if mr.state == MRState.inactive then handleStop dbFails s1
      else
        handleStop dbFails
          { s1 with recordedChunks := s1.recordedChunks ++ extraChunks }

/-! ## Photo pipeline: `takePhoto` -/

/-- The filter style table `STYLES` of the source. -/
def styles : List (String × String) :=
  [("Normal", "none"),
   ("Vivid", "contrast(1.1) saturate(1.3)"),
   ("Mono", "grayscale(1) contrast(1.1)"),
   ("Cool", "sepia(0.2) hue-rotate(180deg) saturate(0.9)"),
   ("Warm", "sepia(0.3) saturate(1.2) contrast(1.05)"),
   ("Cyber", "hue-rotate(190deg) contrast(1.2)")]

/-- The night-mode additive filter appended in `takePhoto`. -/
def nightFilter (night : Bool) : String :=
  if night then "brightness(1.3) contrast(1.1) saturate(0.8)" else ""

/-- The composite canvas filter of `takePhoto`:
the style filter, a space, the night filter, trimmed. -/
def composedFilter (idx : Nat) (night : Bool) : String :=
  (((styles.getD idx ("", "")).2 ++ " " ++ nightFilter night).trim)

/-- Platform behaviour for `takePhoto`: the live frame dimensions, the
outcome of the best-effort 1.5s live-clip recording, the JPEG encoding
performed by `canvas.toBlob` (from the crop rectangle, the composite
filter and the frame; `none` models a null blob), and whether the video
and canvas refs are attached. -/
structure PhotoEnv where
  frameWidth : ℚ
  frameHeight : ℚ
  liveCaptureOk : Bool
  liveData : Blob
  encode : Rect → String → Option Blob
  refsOk : Bool

/-- The synchronous head of `takePhoto`: shows the flash overlay cue
(cleared 250ms later by a timer).  After this the function suspends for
the 1.5s live capture (when enabled) and the `toBlob` encoding, leaving
the guard flags untouched: no flag marks a photo in flight. -/
def takePhotoBegin (s : CamState) : CamState :=
  { s with showFlashOverlay := true }

/-- The best-effort live clip of `takePhoto`: recorded only when `LIVE`
is enabled and a stream exists; a capture failure is caught and yields
no clip without failing the photo. -/
def takePhotoLive (env : PhotoEnv) (s : CamState) : Option Blob :=
  if s.liveEnabled && s.stream.isSome then
    if env.liveCaptureOk then some env.liveData else none
  else none

/-- The tail of `takePhoto`: crops the frame by the aspect policy,
renders through the composite filter, encodes to JPEG and persists the
photo with its metadata, then reloads the gallery.  A null blob from
`toBlob` stores nothing. -/
def takePhotoFinish (env : PhotoEnv) (live : Option Blob) (s : CamState) :
    CamState :=
  if env.refsOk then
    let r := cropRect s.aspect env.frameWidth env.frameHeight
    match env.encode r (composedFilter s.styleIndex s.nightMode) with
    | some blob =>
      let added := dbAdd s.db s.nextKey
        { id := 0
          kind := MediaKind.photo
          blob := blob
          live := live
          createdAt := s.now
          metaFacing := none
          metaStyle := some (styles.getD s.styleIndex ("", "")).1
          metaAspect := some s.aspect
          metaNight := some s.nightMode }
      { s with
        db := added.1
        nextKey := added.2
        gallery := loadGallery added.1 }
    | none => s
  else s

/-- `takePhoto` end to end. -/
def takePhoto (env : PhotoEnv) (s : CamState) : CamState :=
  let s1 := takePhotoBegin s
  takePhotoFinish env (takePhotoLive env s1) s1

/-! ## Unified capture entry point: `triggerCapture` -/

/-- How a `triggerCapture` call ended: rejected by the transient guard
check, aborted by the guard re-check after the countdown, or dispatched
to the photo pipeline or a recording transition. -/
inductive TrigResult where
  | rejected
  | abortedAfterTimer
  | dispatched
  deriving DecidableEq

/-- The guard consulted by `triggerCapture`:
`isStartingRef.current || isStoppingRef.current || isProcessing`. -/
def triggerGuard (s : CamState) : Bool :=
  s.isStarting || s.isStopping || s.isProcessing

/-- Everything the environment contributes to one `triggerCapture`
call: recorder platform behaviour and the callback schedule of a start
attempt, the photo platform behaviour, the data flushed while a stop
finalizes, storage failure, and the state transformation performed by
concurrent code during the countdown's cooperative suspensions. -/
structure TrigEnv where
  plat : RecPlatform
  startEvents : List (Nat × RecEvent)
  photo : PhotoEnv
  stopExtraChunks : List Blob
  dbFails : Bool
  duringTimer : CamState → CamState

/-- `triggerCapture`: returns immediately when the guard reports busy;
otherwise, if a timer is configured and the machine is not recording, it
counts down (suspending each second; `duringTimer` is what runs in the
meantime), clears the counter, and aborts if the starting/stopping
guards became set during the delay; finally dispatches on the current
mode — start or stop recording in video mode, the photo pipeline in
photo mode. -/
def triggerCapture (env : TrigEnv) (s : CamState) : CamState × TrigResult :=
  if triggerGuard s then (s, TrigResult.rejected)
  else
    let timed := 0 < s.timer && !s.isRecording
    let s1 := if timed then { env.duringTimer s with countdown := none } else s
    if timed && (s1.isStarting || s1.isStopping) then
      (s1, TrigResult.abortedAfterTimer)
    else if s1.mode = Mode.video then
      if !s1.isRecording then
        ((runStart env.plat s1 env.startEvents).state, TrigResult.dispatched)
      else
        (stopVideoRecording env.dbFails env.stopExtraChunks s1,
         TrigResult.dispatched)
    else
      (takePhoto env.photo s1, TrigResult.dispatched)

/-! ## Derived predicates -/

/-- Whether the stream is present with at least one live (active)
audio/video track; the start guard checks only stream presence, so this
differs from `startGuard`. -/
def streamHasActiveTrack (s : CamState) : Bool :=
  match s.stream with
  | none => false
  | some st => st.tracks.any (fun t => t.active)

/-- The chunks a recording session delivers: the payloads of the
`ondataavailable` callbacks with positive size, in schedule order. -/
def deliveredChunks (evs : List (Nat × RecEvent)) : List Blob :=
  evs.filterMap fun te =>
    match te.2 with
    | RecEvent.dataAvailable d => if 0 < d.length then some d else none
    | _ => none

/-- A callback schedule entry of a silently stalled start attempt: the
start acknowledgment never fires (no `onstart`, no `onerror`), and the
armed safety timeout fires at its configured delay. -/
def stallEvent (te : Nat × RecEvent) : Prop :=
  te.2 ≠ RecEvent.onstart ∧ te.2 ≠ RecEvent.onerror ∧
    (te.2 = RecEvent.startTimeout → te.1 = startTimeoutMs)

/-- A start attempt still awaiting its acknowledgment: unresolved, with
the "starting" guard and the processing flag set. -/
def startPending (r : StartResult) : Prop :=
  r.resolved = none ∧ r.state.isStarting = true ∧ r.state.isProcessing = true

/-- A start attempt forcibly cancelled by the safety timeout: resolved
`false` at the timeout bound, guard and processing flags clear, recorder
detached. -/
def startCancelled (r : StartResult) : Prop :=
  r.resolved = some (false, startTimeoutMs) ∧
    r.state.isStarting = false ∧ r.state.isProcessing = false ∧
    r.state.mediaRecorder = none

/-- Invariant tying the component's held stream to the platform's device
handles: granted ids are below the platform counter and distinct, and
every granted-but-not-stopped handle is exactly the stream the component
holds. -/
def sessInv (s : CamState) (p : PlatState) : Prop :=
  (∀ i ∈ p.granted, i < p.nextStreamId) ∧
  p.granted.Nodup ∧
  ∀ i ∈ p.granted, i ∉ p.stopped → ∃ st, s.stream = some st ∧ st.id = i

/-! ## Concrete fixtures -/

/-- A live video track without zoom capability. -/
def liveTrack : Track :=
  { active := true, hasZoom := false, zoomMin := 1, zoomMax := 1
    appliedZoom := none }

/-- A track advertising a zoom capability with supported range [1, 2]. -/
def zoomTrack : Track :=
  { active := true, hasZoom := true, zoomMin := 1, zoomMax := 2
    appliedZoom := none }

/-- An idle component state: one live stream attached, photo mode, no
timer, empty store (auto-increment keys start at 1), all guards clear. -/
def baseState : CamState :=
  { stream := some { id := 0, tracks := [liveTrack] }
    mediaRecorder := none
    recordedChunks := []
    isStarting := false
    isStopping := false
    isRecording := false
    isProcessing := false
    countdown := none
    showFlashOverlay := false
    db := []
    nextKey := 1
    gallery := []
    toasts := []
    facingMode := Facing.environment
    mode := Mode.video
    timer := 0
    aspect := Aspect.full
    nightMode := false
    styleIndex := 0
    liveEnabled := true
    now := 0 }

/-- `baseState` in photo mode. -/
def photoState : CamState := { baseState with mode := Mode.photo }

/-- The state during a photo capture's asynchronous suspensions: a first
trigger has run the synchronous head of `takePhoto` and is awaiting the
live clip / encoding. -/
def midPhotoState : CamState := takePhotoBegin photoState

/-- A state whose stream exists but has no active track. -/
def endedTrackState : CamState :=
  { baseState with
    stream := some { id := 0, tracks := [{ liveTrack with active := false }] } }

/-- A state mid-stop with two buffered bytes of recording data. -/
def stoppingState : CamState := { baseState with recordedChunks := [[7, 7]] }

/-- A recording platform supporting every mime type and starting
cleanly. -/
def recPlat : RecPlatform :=
  { isTypeSupported := fun _ => true, startThrows := false }

/-- A photo platform delivering a 1920×1080 frame, a successful live
clip and a three-byte JPEG. -/
def photoEnv1920 : PhotoEnv :=
  { frameWidth := 1920, frameHeight := 1080, liveCaptureOk := true
    liveData := [7], encode := fun _ _ => some [1, 2, 3], refsOk := true }

/-- A quiet trigger environment: clean platform, no recorder callbacks,
no concurrent activity during the countdown. -/
def quietEnv : TrigEnv :=
  { plat := recPlat
    startEvents := []
    photo := photoEnv1920
    stopExtraChunks := []
    dbFails := false
    duringTimer := fun s => s }

/-- An acquisition environment whose first `getUserMedia` attempt is
granted. -/
def grantEnv : AcqEnv := { firstGrant := some [liveTrack], fallbackGrant := none }

/-- A fresh platform: no device handle granted yet. -/
def platInit : PlatState := { nextStreamId := 0, granted := [], stopped := [] }

/-- A component state before any stream was acquired. -/
def noStreamState : CamState := { baseState with stream := none }

/-- First `startCamera` call from the fresh state. -/
def acq1 : Acquired := startCamera grantEnv noStreamState platInit

/-- Second `startCamera` call, immediately after the first. -/
def acq2 : Acquired := startCamera grantEnv acq1.cam acq1.plat

/-! ## Theorems -/

/-- C6: photo capture with aspect policy 1:1 on a 1920×1080 frame crops
to exactly 1080×1080, centered, trimming 420 pixels from the left
(`sx = 420`) and 420 from the right (`width - (sx + sw) = 420`); in
general the 1:1 source rectangle is a square of side
`min(width, height)` whose center coincides with the frame center
(`2·sx + sw = width` and `2·sy + sh = height`). -/
theorem crop_one_one_centered_square :
    (cropRect Aspect.oneOne 1920 1080 =
        { sx := 420, sy := 0, sw := 1080, sh := 1080 } ∧
      (1920 : ℚ) - ((cropRect Aspect.oneOne 1920 1080).sx +
        (cropRect Aspect.oneOne 1920 1080).sw) = 420) ∧
    ∀ w h : ℚ,
      (cropRect Aspect.oneOne w h).sw = min w h ∧
      (cropRect Aspect.oneOne w h).sh = min w h ∧
      2 * (cropRect Aspect.oneOne w h).sx + (cropRect Aspect.oneOne w h).sw = w ∧
      2 * (cropRect Aspect.oneOne w h).sy + (cropRect Aspect.oneOne w h).sh = h := by
  constructor
  · constructor
    · norm_num [cropRect]
    · norm_num [cropRect]
  · intro w h
    have e : cropRect Aspect.oneOne w h =
        { sx := (w - min w h) / 2, sy := (h - min w h) / 2
          sw := min w h, sh := min w h } := rfl
    rw [e]
    exact ⟨rfl, rfl, by ring, by ring⟩

/-- C7: the 4:3 source rectangle never exceeds the native frame (no
upscaling), is centered in both axes, keeps one full frame dimension
(cropping only the longer one), and fits the 4:3 ratio: width:height is
4:3 on landscape frames (`h < w`) and 3:4 on portrait frames
(`w ≤ h`). -/
theorem crop_four_three_fits (w h : ℚ) :
    (cropRect Aspect.fourThree w h).sw ≤ w ∧
    (cropRect Aspect.fourThree w h).sh ≤ h ∧
    2 * (cropRect Aspect.fourThree w h).sx + (cropRect Aspect.fourThree w h).sw = w ∧
    2 * (cropRect Aspect.fourThree w h).sy + (cropRect Aspect.fourThree w h).sh = h ∧
    ((cropRect Aspect.fourThree w h).sw = w ∨ (cropRect Aspect.fourThree w h).sh = h) ∧
    (h < w → 3 * (cropRect Aspect.fourThree w h).sw = 4 * (cropRect Aspect.fourThree w h).sh) ∧
    (w ≤ h → 4 * (cropRect Aspect.fourThree w h).sw = 3 * (cropRect Aspect.fourThree w h).sh) := by
  have e : cropRect Aspect.fourThree w h =
      (if h < w then
        (if h * (4 / 3) < w then
          { sx := (w - h * (4 / 3)) / 2, sy := 0, sw := h * (4 / 3), sh := h }
        else
          { sx := 0, sy := (h - w * (3 / 4)) / 2, sw := w, sh := w * (3 / 4) })
      else
        (if w * (4 / 3) < h then
          { sx := 0, sy := (h - w * (4 / 3)) / 2, sw := w, sh := w * (4 / 3) }
        else
          { sx := (w - h * (3 / 4)) / 2, sy := 0, sw := h * (3 / 4), sh := h })) := rfl
  rw [e]
  split_ifs with h1 h2 h3
  · exact ⟨by linarith, le_refl h, by ring, by ring, Or.inr rfl,
      fun _ => by ring, fun hx => absurd (lt_of_lt_of_le h1 hx) (lt_irrefl h)⟩
  · exact ⟨le_refl w, by linarith, by ring, by ring, Or.inl rfl,
      fun _ => by ring, fun hx => absurd (lt_of_lt_of_le h1 hx) (lt_irrefl h)⟩
  · exact ⟨le_refl w, by linarith, by ring, by ring, Or.inl rfl,
      fun hx => absurd hx h1, fun _ => by ring⟩
  · exact ⟨by linarith, le_refl h, by ring, by ring, Or.inr rfl,
      fun hx => absurd hx h1, fun _ => by ring⟩

/-- Witness for C7 at the 1920×1080 landscape frame: the rectangle has
4:3 proportions and does not exceed the frame width. -/
theorem crop_four_three_fits_witness :
    3 * (cropRect Aspect.fourThree 1920 1080).sw =
      4 * (cropRect Aspect.fourThree 1920 1080).sh ∧
    (cropRect Aspect.fourThree 1920 1080).sw ≤ 1920 :=
  ⟨(crop_four_three_fits 1920 1080).2.2.2.2.2.1 (by norm_num),
   (crop_four_three_fits 1920 1080).1⟩

/-- C8 counterexample: `applyZoom` performs no clamping.  On a track
whose supported zoom range is [1, 2], requesting factor 10 applies the
constraint with value 10, strictly above the supported maximum — the
factor is not clamped to the track's range before being applied. -/
theorem applyZoom_no_clamp_counterexample :
    (applyZoom { capsAvailable := true, constraintFails := false } 10
        (some zoomTrack)).1 =
      some { zoomTrack with appliedZoom := some 10 } ∧
    ¬((10 : ℚ) ≤ zoomTrack.zoomMax) := by
  constructor
  · rfl
  · norm_num [zoomTrack]

/-- C8 amended: `applyZoom` applies the requested factor as-is (without
clamping to the track's supported range), silently no-ops when no track
exists, when the track does not advertise a zoom capability, or when the
platform rejects the constraint, and never propagates an exception to
the caller. -/
theorem applyZoom_best_effort (env : ZoomEnv) (z : ℚ) (t : Track) :
    (∀ t' : Option Track, (applyZoom env z t').2 = false) ∧
    (applyZoom env z none).1 = none ∧
    (t.hasZoom = false → (applyZoom env z (some t)).1 = some t) ∧
    (env.capsAvailable = false → (applyZoom env z (some t)).1 = some t) ∧
    (env.constraintFails = true → (applyZoom env z (some t)).1 = some t) ∧
    (env.capsAvailable = true → t.hasZoom = true → env.constraintFails = false →
      (applyZoom env z (some t)).1 = some { t with appliedZoom := some z }) := by
  refine ⟨fun t' => ?_, rfl, fun h1 => ?_, fun h2 => ?_, fun h3 => ?_,
    fun h4 h5 h6 => ?_⟩
  · cases t' with
    | none => rfl
    | some tr =>
      simp only [applyZoom]
      split_ifs <;> rfl
  · simp [applyZoom, h1]
  · simp [applyZoom, h2]
  · simp only [applyZoom, h3]
    split_ifs <;> rfl
  · simp [applyZoom, h4, h5, h6]

/-- Witness for the amended C8: with no capability path the track is
untouched; with the capability present the raw factor 5 is applied. -/
theorem applyZoom_best_effort_witness :
    (applyZoom { capsAvailable := false, constraintFails := false } 5
        (some zoomTrack)).1 = some zoomTrack ∧
    (applyZoom { capsAvailable := true, constraintFails := false } 5
        (some zoomTrack)).1 = some { zoomTrack with appliedZoom := some 5 } :=
  ⟨(applyZoom_best_effort { capsAvailable := false, constraintFails := false }
      5 zoomTrack).2.2.2.1 rfl,
   (applyZoom_best_effort { capsAvailable := true, constraintFails := false }
      5 zoomTrack).2.2.2.2.2 rfl rfl rfl⟩

/-- C9: `loadGallery` returns exactly the stored records (`dbGetAll`),
ordered by identity descending — `galleryRel` is the comparator
`(a, b) => b.id - a.id` — and after three successive `dbAdd` calls on an
empty store (auto-increment keys 1, 2, 3) it returns the entries in the
order id 3, id 2, id 1. -/
theorem loadGallery_desc_by_id :
    (∀ db : List MediaRecord,
      (loadGallery db).Perm (dbGetAll db) ∧
      List.Sorted galleryRel (loadGallery db)) ∧
    ∀ r1 r2 r3 : MediaRecord,
      let a1 := dbAdd [] 1 r1
      let a2 := dbAdd a1.1 a1.2 r2
      let a3 := dbAdd a2.1 a2.2 r3
      loadGallery a3.1 =
        [{ r3 with id := 3 }, { r2 with id := 2 }, { r1 with id := 1 }] := by
  constructor
  · intro db
    exact ⟨List.perm_insertionSort galleryRel (dbGetAll db),
      List.sorted_insertionSort galleryRel (dbGetAll db)⟩
  · intro r1 r2 r3
    rfl

/-- C3: stop finalization with a zero-size concatenated payload reports
(`"Recording empty"` toast) but does not persist — the store and hence
`loadGallery`/`listAll` show no new entry; with a positive total size
(and a working store) exactly one new record is persisted, a video
artifact carrying the concatenated payload. -/
theorem stop_finalization_empty_vs_persist (dbFails : Bool) (s : CamState) :
    (s.recordedChunks.flatten.length = 0 →
      (handleStop dbFails s).db = s.db ∧
      loadGallery (handleStop dbFails s).db = loadGallery s.db ∧
      (handleStop dbFails s).toasts = "Recording empty" :: s.toasts) ∧
    (0 < s.recordedChunks.flatten.length → dbFails = false →
      (handleStop dbFails s).db = s.db ++
        [{ id := s.nextKey
           kind := MediaKind.video
           blob := s.recordedChunks.flatten
           live := none
           createdAt := s.now
           metaFacing := some s.facingMode
           metaStyle := none
           metaAspect := none
           metaNight := none }]) := by
  constructor
  · intro h
    refine ⟨?_, ?_, ?_⟩ <;> simp [handleStop, h]
  · intro h hdb
    subst hdb
    simp only [handleStop]
    rw [if_pos h]
    simp [dbAdd]

/-- Witness for C3: finalizing with an empty buffer leaves the store
unchanged; finalizing with a two-byte buffer appends one video
record. -/
theorem stop_finalization_empty_vs_persist_witness :
    (handleStop false baseState).db = baseState.db ∧
    (handleStop false stoppingState).db = stoppingState.db ++
      [{ id := stoppingState.nextKey
         kind := MediaKind.video
         blob := stoppingState.recordedChunks.flatten
         live := none
         createdAt := stoppingState.now
         metaFacing := some stoppingState.facingMode
         metaStyle := none
         metaAspect := none
         metaNight := none }] :=
  ⟨((stop_finalization_empty_vs_persist false baseState).1 rfl).1,
   (stop_finalization_empty_vs_persist false stoppingState).2 (by decide) rfl⟩

/-- When the guard passes, a mime is available and the platform does not
throw, the synchronous part of `startVideoRecording` leaves a pending
armed attempt: flags set, chunk buffer reset, recorder created. -/
theorem startSetup_pending (p : RecPlatform) (s : CamState)
    (hg : startGuard s = false) (hm : recordingSupported p = true)
    (ht : p.startThrows = false) :
    startVideoRecordingSetup p s =
      { state :=
          { s with
            isStarting := true
            isProcessing := true
            recordedChunks := []
            mediaRecorder := some { state := MRState.recording } }
        resolved := none
        armed := true } := by
  simp [startVideoRecordingSetup, hg, hm, ht]

/-- No recorder callback ever removes buffered chunks: folding any
callback schedule appends exactly the delivered positive-size data. -/
theorem foldl_stepStart_chunks (evs : List (Nat × RecEvent)) (r : StartResult) :
    (evs.foldl stepStart r).state.recordedChunks =
      r.state.recordedChunks ++ deliveredChunks evs := by
  induction evs generalizing r with
  | nil => simp [deliveredChunks]
  | cons te evs ih =>
    rw [List.foldl_cons, ih]
    obtain ⟨t, e⟩ := te
    cases e with
    | dataAvailable d =>
      by_cases hd : 0 < d.length
      · simp [stepStart, hd, deliveredChunks]
      · simp [stepStart, hd, deliveredChunks]
    | onerror =>
      by_cases hs : r.state.isStarting <;>
        simp [stepStart, hs, deliveredChunks]
    | onstart =>
      simp [stepStart, deliveredChunks]
    | startTimeout =>
      by_cases hs : r.state.isStarting <;>
        simp [stepStart, hs, deliveredChunks]

/-- C10: `startVideoRecording` resets the shared chunk buffer to empty
before creating the recorder, so whatever the buffer held from earlier
recordings, the buffer at any later point of the attempt holds exactly
the positive-size chunks delivered by this session's `ondataavailable`
callbacks — no chunk of a previous recording can reach the artifact
that stop finalization concatenates. -/
theorem recording_buffer_isolated (p : RecPlatform) (s : CamState)
    (evs : List (Nat × RecEvent))
    (hg : startGuard s = false) (hm : recordingSupported p = true)
    (ht : p.startThrows = false) :
    (startVideoRecordingSetup p s).state.recordedChunks = [] ∧
    (runStart p s evs).state.recordedChunks = deliveredChunks evs := by
  have hsetup := startSetup_pending p s hg hm ht
  constructor
  · rw [hsetup]
  · have harmed : (startVideoRecordingSetup p s).armed = true := by rw [hsetup]
    rw [runStart]
    simp only [harmed, if_pos]
    rw [foldl_stepStart_chunks, hsetup]
    simp

/-- Witness for C10: an attempt whose prior buffer held a stale chunk
`[9]` ends up holding exactly the two chunks delivered during the
session. -/
theorem recording_buffer_isolated_witness :
    (runStart recPlat { baseState with recordedChunks := [[9]] }
        [(1000, RecEvent.dataAvailable [1]), (2000, RecEvent.dataAvailable [2])]).state.recordedChunks =
      deliveredChunks
        [(1000, RecEvent.dataAvailable [1]), (2000, RecEvent.dataAvailable [2])] :=
  (recording_buffer_isolated recPlat { baseState with recordedChunks := [[9]] }
    [(1000, RecEvent.dataAvailable [1]), (2000, RecEvent.dataAvailable [2])]
    rfl rfl rfl).2

/-- In a silent stall, one callback keeps a pending attempt pending
unless it is the safety timeout, which cancels it. -/
theorem stepStart_stall_of_pending (r : StartResult) (te : Nat × RecEvent)
    (hev : stallEvent te) (hp : startPending r) :
    startPending (stepStart r te) ∨ startCancelled (stepStart r te) := by
  obtain ⟨hres, hst, hpr⟩ := hp
  obtain ⟨t, e⟩ := te
  cases e with
  | dataAvailable d =>
    left
    by_cases hd : 0 < d.length <;>
      simp [stepStart, hd, startPending, hres, hst, hpr]
  | onerror => exact absurd rfl hev.2.1
  | onstart => exact absurd rfl hev.1
  | startTimeout =>
    right
    have htt : t = startTimeoutMs := hev.2.2 rfl
    simp [stepStart, hst, startCancelled, hres, resolveOnce, htt]

/-- In a silent stall, a cancelled attempt stays cancelled: data
deliveries leave the resolution and flags alone, and a second timeout
no-ops on a clear guard. -/
theorem stepStart_stall_of_cancelled (r : StartResult) (te : Nat × RecEvent)
    (hev : stallEvent te) (hc : startCancelled r) :
    startCancelled (stepStart r te) := by
  obtain ⟨hres, hst, hpr, hmr⟩ := hc
  obtain ⟨t, e⟩ := te
  cases e with
  | dataAvailable d =>
    by_cases hd : 0 < d.length <;>
      simp [stepStart, hd, startCancelled, hres, hst, hpr, hmr]
  | onerror => exact absurd rfl hev.2.1
  | onstart => exact absurd rfl hev.1
  | startTimeout => simp [stepStart, hst, startCancelled, hres, hpr, hmr]

/-- Folding stall callbacks over a cancelled attempt keeps it
cancelled. -/
theorem foldl_stall_cancelled (evs : List (Nat × RecEvent)) (r : StartResult)
    (hall : ∀ te ∈ evs, stallEvent te) (hc : startCancelled r) :
    startCancelled (evs.foldl stepStart r) := by
  induction evs generalizing r with
  | nil => exact hc
  | cons te evs ih =>
    rw [List.foldl_cons]
    exact ih _ (fun x hx => hall x (List.mem_cons_of_mem te hx))
      (stepStart_stall_of_cancelled r te (hall te (List.mem_cons_self te evs)) hc)

/-- A stalled schedule containing the safety timeout leaves a pending
attempt cancelled. -/
theorem foldl_stall_reaches_cancelled (evs : List (Nat × RecEvent))
    (r : StartResult) (hall : ∀ te ∈ evs, stallEvent te)
    (hto : (startTimeoutMs, RecEvent.startTimeout) ∈ evs)
    (hp : startPending r) :
    startCancelled (evs.foldl stepStart r) := by
  induction evs generalizing r with
  | nil => exact absurd hto (List.not_mem_nil _)
  | cons te evs ih =>
    rw [List.foldl_cons]
    have hev := hall te (List.mem_cons_self te evs)
    have hrest : ∀ x ∈ evs, stallEvent x :=
      fun x hx => hall x (List.mem_cons_of_mem te hx)
    rcases stepStart_stall_of_pending r te hev hp with hp' | hc'
    · rcases List.mem_cons.mp hto with he | hmem
      · exfalso
        have hcc' : startCancelled (stepStart r te) := by
          rw [← he]
          rcases stepStart_stall_of_pending r (startTimeoutMs, RecEvent.startTimeout)
            ⟨by simp, by simp, fun _ => rfl⟩ hp with hpp | hcc
          · obtain ⟨hres, hst, _⟩ := hp
            obtain ⟨hres', hst', _⟩ := hpp
            simp [stepStart, hst, resolveOnce, hres] at hres'
          · exact hcc
        obtain ⟨hres', _⟩ := hp'
        obtain ⟨hres'', _⟩ := hcc'
        rw [hres'] at hres''
        exact Option.noConfusion hres''
      · exact ih _ hrest hmem hp'
    · exact foldl_stall_cancelled evs _ hrest hc'

/-- C2: a start attempt that passes the guard, arms its safety timeout
and never receives the start acknowledgment (a silent stall: no
`onstart`, no `onerror`) resolves `false` no later than the configured
2.5s start-timeout, and immediately after the attempt is forcibly
cancelled: the "starting" guard and the processing flag are clear and
the recorder is detached. -/
theorem start_timeout_resolves_failure (p : RecPlatform) (s : CamState)
    (evs : List (Nat × RecEvent))
    (hg : startGuard s = false) (hm : recordingSupported p = true)
    (ht : p.startThrows = false)
    (hall : ∀ te ∈ evs, stallEvent te)
    (hto : (startTimeoutMs, RecEvent.startTimeout) ∈ evs) :
    (∃ t, (runStart p s evs).resolved = some (false, t) ∧ t ≤ startTimeoutMs) ∧
    (runStart p s evs).state.isStarting = false ∧
    (runStart p s evs).state.isProcessing = false ∧
    (runStart p s evs).state.mediaRecorder = none := by
  have hsetup := startSetup_pending p s hg hm ht
  have hpend : startPending (startVideoRecordingSetup p s) := by
    rw [hsetup]
    exact ⟨rfl, rfl, rfl⟩
  have harmed : (startVideoRecordingSetup p s).armed = true := by rw [hsetup]
  have hrun : runStart p s evs = evs.foldl stepStart (startVideoRecordingSetup p s) := by
    rw [runStart]
    simp only [harmed, if_pos]
  have hc := foldl_stall_reaches_cancelled evs _ hall hto hpend
  rw [hrun]
  exact ⟨⟨startTimeoutMs, hc.1, le_refl _⟩, hc.2.1, hc.2.2.1, hc.2.2.2⟩

/-- Witness for C2: from the idle state, a schedule consisting of the
armed timeout alone resolves the attempt `false` by 2500ms with the
guard clear and the recorder detached. -/
theorem start_timeout_resolves_failure_witness :
    (∃ t, (runStart recPlat baseState
        [(startTimeoutMs, RecEvent.startTimeout)]).resolved =
        some (false, t) ∧ t ≤ startTimeoutMs) ∧
    (runStart recPlat baseState
        [(startTimeoutMs, RecEvent.startTimeout)]).state.isStarting = false ∧
    (runStart recPlat baseState
        [(startTimeoutMs, RecEvent.startTimeout)]).state.isProcessing = false ∧
    (runStart recPlat baseState
        [(startTimeoutMs, RecEvent.startTimeout)]).state.mediaRecorder = none :=
  start_timeout_resolves_failure recPlat baseState
    [(startTimeoutMs, RecEvent.startTimeout)] rfl rfl rfl
    (by
      intro te hte
      rw [List.mem_singleton] at hte
      rw [hte]
      exact ⟨by simp, by simp, fun _ => rfl⟩)
    (List.mem_singleton.mpr rfl)

/-- C4 counterexample: the guard of `startVideoRecording` checks only
`!streamRef.current || isRecording || isStartingRef.current`; it never
inspects track liveness.  On an idle state whose stream exists but has
no active audio/video track, the claim requires a fail-fast no-op with
no recorder created, yet the code proceeds: it sets the "starting"
guard,  creates and attaches a recorder and changes the state. -/
theorem start_no_active_track_counterexample :
    streamHasActiveTrack endedTrackState = false ∧
    endedTrackState.isRecording = false ∧
    endedTrackState.isStarting = false ∧
    (startVideoRecordingSetup recPlat endedTrackState).state.mediaRecorder ≠
      none ∧
    (startVideoRecordingSetup recPlat endedTrackState).state.isStarting = true ∧
    (startVideoRecordingSetup recPlat endedTrackState).state ≠
      endedTrackState := by
  refine ⟨rfl, rfl, rfl, ?_, rfl, ?_⟩ <;> decide

/-- C4 amended: `startVideoRecording` fails fast as a no-op — returning
`false` with no recorder created, no flag modified and no state change —
exactly when its guard fires: no stream attached, or recording already
in progress, or a start attempt already in flight.  The "starting"
guard is never set on this path, so it is clear afterwards whenever it
was clear before. -/
theorem start_guard_fails_fast (p : RecPlatform) (s : CamState)
    (evs : List (Nat × RecEvent)) (hg : startGuard s = true) :
    runStart p s evs =
      { state := s, resolved := some (false, 0), armed := false } := by
  simp [runStart, startVideoRecordingSetup, hg]

/-- Witness for the amended C4: starting with no stream attached returns
`false` and changes nothing. -/
theorem start_guard_fails_fast_witness :
    runStart recPlat noStreamState [] =
      { state := noStreamState, resolved := some (false, 0), armed := false } :=
  start_guard_fails_fast recPlat noStreamState [] rfl

/-- C1 amended: whenever the guard consulted by `triggerCapture` —
`isStartingRef.current || isStoppingRef.current || isProcessing` —
reports busy, the call returns immediately with the state unchanged and
no dispatch.  (`isProcessing` is set only by the video start/stop
transitions; a photo capture in flight sets none of the three inputs,
see the counterexample.) -/
theorem trigger_rejected_when_guard_busy (env : TrigEnv) (s : CamState)
    (h : triggerGuard s = true) :
    triggerCapture env s = (s, TrigResult.rejected) := by
  simp [triggerCapture, h]

/-- Witness for the amended C1: a state mid video transition
(`isProcessing` set) is rejected unchanged. -/
theorem trigger_rejected_when_guard_busy_witness :
    triggerCapture quietEnv { baseState with isProcessing := true } =
      ({ baseState with isProcessing := true }, TrigResult.rejected) :=
  trigger_rejected_when_guard_busy quietEnv
    { baseState with isProcessing := true } rfl

/-- C1 counterexample: a photo capture in flight does not make the guard
report processing.  `takePhoto` sets no guard flag before its
asynchronous suspensions (the 1.5s live-clip await and the `toBlob`
encoding), so in the state reached once a first trigger has executed the
synchronous head of the photo pipeline, all three guard inputs are still
false, and a second `triggerCapture` is not rejected: it dispatches a
second photo and persists a new artifact instead of returning
immediately with no side effects. -/
theorem trigger_photo_in_flight_counterexample :
    triggerGuard midPhotoState = false ∧
    (triggerCapture quietEnv midPhotoState).2 = TrigResult.dispatched ∧
    (triggerCapture quietEnv midPhotoState).1.db.length =
      midPhotoState.db.length + 1 := by
  refine ⟨rfl, rfl, ?_⟩
  decide

/-- A duplicate-free list of naturals whose members are all equal has at
most one element. -/
theorem nat_list_length_le_one (l : List Nat) (v : Nat) (hnd : l.Nodup)
    (hall : ∀ i ∈ l, i = v) : l.length ≤ 1 := by
  match l with
  | [] => simp
  | [_] => simp
  | a :: b :: t =>
    exfalso
    have ha : a = v := hall a (List.mem_cons_self a (b :: t))
    have hb : b = v := hall b (List.mem_cons_of_mem a (List.mem_cons_self b t))
    have hne : a ∉ b :: t := (List.nodup_cons.mp hnd).1
    exact hne (by rw [ha, ← hb]; exact List.mem_cons_self b t)

/-- Under the session invariant, at most one device handle is open. -/
theorem sessInv_active_le_one (s : CamState) (p : PlatState)
    (h : sessInv s p) : (activeStreams p).length ≤ 1 := by
  obtain ⟨hf, hnd, hh⟩ := h
  cases hs : s.stream with
  | none =>
    have hempty : activeStreams p = [] := by
      rw [activeStreams, List.filter_eq_nil_iff]
      intro i hi hfi
      have hns : i ∉ p.stopped := by simpa using hfi
      obtain ⟨st, hst, _⟩ := hh i hi hns
      rw [hs] at hst
      exact Option.noConfusion hst
    rw [hempty]
    simp
  | some st =>
    apply nat_list_length_le_one _ st.id (hnd.filter _)
    intro i hi
    have hmem := List.mem_filter.mp hi
    have hns : i ∉ p.stopped := by simpa using hmem.2
    obtain ⟨st', hst', hid⟩ := hh i hmem.1 hns
    rw [hs] at hst'
    rw [← hid, Option.some.inj hst']

/-- After a granted acquisition — fresh id `n`, every previously granted
id already stopped — the session invariant holds again. -/
theorem sessInv_after_grant (granted stopped' : List Nat) (n : Nat)
    (cam' : CamState) (tr : List Track)
    (hcam : cam'.stream = some { id := n, tracks := tr })
    (hf : ∀ i ∈ granted, i < n)
    (hnd : granted.Nodup)
    (hdead : ∀ i ∈ granted, i ∈ stopped') :
    sessInv cam'
      { nextStreamId := n + 1, granted := granted ++ [n], stopped := stopped' } := by
  refine ⟨?_, ?_, ?_⟩
  · intro i hi
    rcases List.mem_append.mp hi with h1 | h1
    · exact Nat.lt_succ_of_lt (hf i h1)
    · rw [List.mem_singleton.mp h1]
      exact Nat.lt_succ_self n
  · rw [List.nodup_append]
    refine ⟨hnd, List.nodup_singleton n, ?_⟩
    intro a ha hb
    have hlt := hf a ha
    rw [List.mem_singleton.mp hb] at hlt
    exact lt_irrefl n hlt
  · intro i hi hns
    rcases List.mem_append.mp hi with h1 | h1
    · exact absurd (hdead i h1) hns
    · exact ⟨{ id := n, tracks := tr }, hcam, (List.mem_singleton.mp h1).symm⟩

/-- `startCamera` preserves the session invariant on every path
(grant, fallback grant, total rejection), whether or not a stream was
held before. -/
theorem startCamera_preserves_inv (env : AcqEnv) (s : CamState)
    (p : PlatState) (h : sessInv s p) :
    sessInv (startCamera env s p).cam (startCamera env s p).plat := by
  obtain ⟨hf, hnd, hh⟩ := h
  cases hs : s.stream with
  | none =>
    have hdead : ∀ i ∈ p.granted, i ∈ p.stopped := by
      intro i hi
      by_cases hstop : i ∈ p.stopped
      · exact hstop
      · obtain ⟨st', hst', _⟩ := hh i hi hstop
        rw [hs] at hst'
        exact absurd hst' (Option.noConfusion)
    cases hg1 : env.firstGrant with
    | some tr =>
      simp only [startCamera, hs, hg1]
      exact sessInv_after_grant p.granted p.stopped p.nextStreamId _ tr rfl hf hnd hdead
    | none =>
      cases hg2 : env.fallbackGrant with
      | some tr =>
        simp only [startCamera, hs, hg1, hg2]
        exact sessInv_after_grant p.granted p.stopped p.nextStreamId _ tr rfl hf hnd hdead
      | none =>
        simp only [startCamera, hs, hg1, hg2]
        refine ⟨hf, hnd, ?_⟩
        intro i hi hns
        exact absurd (hdead i hi) hns
  | some st =>
    have hdead : ∀ i ∈ p.granted, i ∈ st.id :: p.stopped := by
      intro i hi
      by_cases hstop : i ∈ p.stopped
      · exact List.mem_cons_of_mem _ hstop
      · obtain ⟨st', hst', hid⟩ := hh i hi hstop
        rw [hs] at hst'
        rw [← hid, ← Option.some.inj hst']
        exact List.mem_cons_self st.id p.stopped
    cases hg1 : env.firstGrant with
    | some tr =>
      simp only [startCamera, hs, hg1]
      exact sessInv_after_grant p.granted (st.id :: p.stopped) p.nextStreamId
        _ tr rfl hf hnd hdead
    | none =>
      cases hg2 : env.fallbackGrant with
      | some tr =>
        simp only [startCamera, hs, hg1, hg2]
        exact sessInv_after_grant p.granted (st.id :: p.stopped) p.nextStreamId
          _ tr rfl hf hnd hdead
      | none =>
        simp only [startCamera, hs, hg1, hg2]
        refine ⟨hf, hnd, ?_⟩
        intro i hi hns
        exact absurd (hdead i hi) hns

/-- Release-before-request ordering: whenever a stream is held, the
effect trace of `startCamera` begins by stopping that stream's tracks,
and no later effect stops anything. -/
theorem startCamera_stops_before_request (env : AcqEnv) (s : CamState)
    (p : PlatState) (st : MStream) (hs : s.stream = some st) :
    ∃ tl, (startCamera env s p).effs = CamEff.stopTracks st.id :: tl ∧
      ∀ j, CamEff.stopTracks j ∉ tl := by
  cases hg1 : env.firstGrant with
  | some tr =>
    refine ⟨[CamEff.getUserMedia (decide (s.mode = Mode.video)),
             CamEff.attach p.nextStreamId], ?_, ?_⟩
    · simp [startCamera, hs, hg1]
    · intro j
      simp
  | none =>
    cases hg2 : env.fallbackGrant with
    | some tr =>
      refine ⟨[CamEff.getUserMedia (decide (s.mode = Mode.video)),
               CamEff.getUserMedia (decide (s.mode = Mode.video)),
               CamEff.attach p.nextStreamId], ?_, ?_⟩
      · simp [startCamera, hs, hg1, hg2]
      · intro j
        simp
    | none =>
      refine ⟨[CamEff.getUserMedia (decide (s.mode = Mode.video)),
               CamEff.getUserMedia (decide (s.mode = Mode.video))], ?_, ?_⟩
      · simp [startCamera, hs, hg1, hg2]
      · intro j
        simp

/-- C5: every `startCamera` call that finds a stream held emits the
stop of that stream's tracks strictly before any `getUserMedia` request
or attach (the first trace element is the stop and nothing later stops
anything); the session invariant — hence at most one active device
handle — is preserved by every call; and calling acquire twice in
succession from a fresh platform leaves exactly one active stream, the
combined trace showing the first stream's release (`stopTracks 0`)
observed before the second stream attaches (`attach 1`). -/
theorem acquire_single_active_stream :
    (∀ env s p st, s.stream = some st →
      ∃ tl, (startCamera env s p).effs = CamEff.stopTracks st.id :: tl ∧
        ∀ j, CamEff.stopTracks j ∉ tl) ∧
    (∀ env s p, sessInv s p →
      sessInv (startCamera env s p).cam (startCamera env s p).plat ∧
      (activeStreams (startCamera env s p).plat).length ≤ 1) ∧
    activeStreams acq2.plat = [1] ∧
    acq1.effs ++ acq2.effs =
      [CamEff.getUserMedia true, CamEff.attach 0,
       CamEff.stopTracks 0, CamEff.getUserMedia true, CamEff.attach 1] := by
  refine ⟨fun env s p st hs => startCamera_stops_before_request env s p st hs,
    fun env s p h => ?_, ?_, ?_⟩
  · have h' := startCamera_preserves_inv env s p h
    exact ⟨h', sessInv_active_le_one _ _ h'⟩
  · decide
  · decide

/-- Witness for C5: the second concrete call releases handle 0 first and
stops nothing later; a call from the fresh state keeps the active-handle
count at most one. -/
theorem acquire_single_active_stream_witness :
    (∃ tl, acq2.effs = CamEff.stopTracks 0 :: tl ∧
      ∀ j, CamEff.stopTracks j ∉ tl) ∧
    (activeStreams (startCamera grantEnv noStreamState platInit).plat).length ≤ 1 :=
  ⟨acquire_single_active_stream.1 grantEnv acq1.cam acq1.plat
      { id := 0, tracks := [liveTrack] } rfl,
   (acquire_single_active_stream.2.1 grantEnv noStreamState platInit
      ⟨by simp [platInit], by simp [platInit], by simp [platInit]⟩).2⟩

end LiquidGlass
